import Mathlib

/-!
Shallow embedding of the repository's single source module
(`src/src/utils/api.js`): an axios-based client facade (shared instance
with a response interceptor, plus the operations `uploadVideo`,
`transcribeVideo`, `renderVideo`, ...) and a serverless forwarding
handler that relays inbound requests to a second backend origin.

JavaScript features are modelled explicitly: optional chaining becomes
`Option.bind` / `Option.any`, truthiness of a number is `≠ 0`, truthiness
of a string is `≠ ""`, and template-literal interpolation of `undefined`
produces the text "undefined".
-/

namespace FrontendFlask

/-- Backend response body as the client error handlers see it: the code
only ever reads the structured `error` field (`error.response?.data?.error`),
so the rest of the body is kept opaque via `rest`. -/
structure ResponseData where
  error : Option String
  rest : String := ""
  deriving DecidableEq

/-- An HTTP response attached to a transport failure (`error.response`). -/
structure HttpResponse where
  status : Int
  data : ResponseData
  deriving DecidableEq

/-- An axios transport failure: a message, an optional error code
(`ERR_NETWORK`, `ECONNABORTED`, ...) and an optional HTTP response. -/
structure JSError where
  message : String
  code : Option String
  response : Option HttpResponse
  deriving DecidableEq

/-- Outcome of a failure path: either a fresh `Error(msg)` is thrown, or
the original error object is re-signaled (rejected) unchanged. -/
inductive FailOutcome where
  | thrown (msg : String)
  | rejected (e : JSError)
  deriving DecidableEq

/-- `error.response?.status === n` (optional chaining: `false` when the
response is absent). -/
def statusIs (e : JSError) (n : Int) : Bool :=
  e.response.any (fun r => r.status == n)

/-- `error.response?.status >= 500` (optional chaining: `false` when the
response is absent, mirroring `undefined >= 500`). -/
def statusGe500 (e : JSError) : Bool :=
  e.response.any (fun r => decide (500 ≤ r.status))

def networkErrMsg : String :=
  "Cannot connect to server. Please check if the backend is running and CORS is configured."

def corsErrMsg : String :=
  "CORS error. Backend is not accepting requests from this domain."

def timeoutErrMsg : String :=
  "Request timed out. Please try with a smaller file or check your connection."

def serverErrMsg : String :=
  "Server error. The backend service may be experiencing issues."

/-- The response interceptor's rejection branch
(`api.interceptors.response.use`, second argument, lines 38-70): four
ordered remapping rules, then pass-through of the original error. -/
def interceptError (e : JSError) : FailOutcome :=
  if e.code = some "ERR_NETWORK" then .thrown networkErrMsg
  else if statusIs e 0 then .thrown corsErrMsg
  else if statusIs e 408 ∨ e.code = some "ECONNABORTED" then .thrown timeoutErrMsg
  else if statusGe500 e then .thrown serverErrMsg
  else .rejected e

/-- `new Error(msg)`: a plain error carrying only a message, with no
`code` and no `response`. -/
def plainError (m : String) : JSError :=
  { message := m, code := none, response := none }

/-- The error object that reaches an operation's catch block when the
call went through the shared `api` instance: the interceptor either
replaced the failure by a plain `Error` or let the original through. -/
def errorAfterIntercept (e : JSError) : JSError :=
  match interceptError e with
  | .thrown m => plainError m
  | .rejected e0 => e0

/-- `charsStartWith pre l` is true iff `pre` is an initial run of `l`. -/
def charsStartWith : List Char → List Char → Bool
  | [], _ => true
  | _ :: _, [] => false
  | a :: as, b :: bs => a == b && charsStartWith as bs

/-- `charsContain needle l` is true iff `needle` occurs contiguously in `l`. -/
def charsContain (needle : List Char) : List Char → Bool
  | [] => needle.isEmpty
  | c :: cs => charsStartWith needle (c :: cs) || charsContain needle cs

/-- JS `s.includes(needle)`: true iff the needle occurs as a contiguous
substring of `s`. -/
def jsIncludes (s needle : String) : Bool :=
  charsContain needle.data s.data

def transcribeTimeoutMsg : String :=
  "Transcription timed out. Please try with a shorter video."

def transcribeGenericMsg : String :=
  "Transcription failed. Please try again."

/-- `transcribeVideo`'s catch block (lines 123-135): substring test on the
message, then a truthiness test of `error.response?.data?.error` (an empty
string is falsy in JS and falls through), then the generic message.
The block always throws a fresh `Error`, so the outcome is just a message. -/
def transcribeCatch (e : JSError) : String :=
  if jsIncludes e.message "timeout" then transcribeTimeoutMsg
  else
    match e.response.bind (fun r => r.data.error) with
    | some s => if s = "" then transcribeGenericMsg else s
    | none => transcribeGenericMsg

/-- End-to-end failure path of `transcribeVideo`: the call goes through
the shared `api` instance, so the interceptor runs before the catch block. -/
def transcribeFailureMsg (e : JSError) : String :=
  transcribeCatch (errorAfterIntercept e)

def uploadNetworkMsg : String :=
  "Network error. Cannot connect to server."

def uploadTooLargeMsg : String :=
  "File too large. Please use a smaller video file."

/-- `uploadVideo`'s catch block (lines 98-110). The upload is issued with
a bare `axios.post`, not the shared `api` instance, so this is the whole
failure path: no interceptor runs first. -/
def uploadCatch (e : JSError) : FailOutcome :=
  if e.code = some "ERR_NETWORK" then .thrown uploadNetworkMsg
  else if statusIs e 413 then .thrown uploadTooLargeMsg
  else .rejected e

/-- The `options` argument of `renderVideo`: only `transitionDuration` is
read by the code; absent maps to `none`. JS numbers are modelled as `ℚ`. -/
structure RenderOptions where
  transitionDuration : Option ℚ
  deriving DecidableEq

/-- The JSON body `renderVideo` posts to `/render-story`. The scene
descriptors are opaque to this layer, hence the type parameter. -/
structure RenderBody (σ : Type) where
  videoId : String
  scenes : σ
  transitionDuration : ℚ

/-- JS `x || d` where `x` is an optionally supplied number: `undefined`
and `0` are falsy (`NaN` too, but `NaN` has no `ℚ` counterpart). -/
def jsNumOr (x : Option ℚ) (d : ℚ) : ℚ :=
  match x with
  | none => d
  | some q => if q = 0 then d else q

/-- The request body built by `renderVideo` (lines 163-167):
`transitionDuration: options.transitionDuration || 0.5`. -/
def renderBody {σ : Type} (videoId : String) (scenes : σ)
    (options : RenderOptions) : RenderBody σ :=
  { videoId := videoId
    scenes := scenes
    transitionDuration := jsNumOr options.transitionDuration (1 / 2) }

/-! ### The forwarding handler (second file in the module) -/

/-- A JSON value, for the bodies the handler serializes and relays. -/
inductive JSValue where
  | null
  | bool (b : Bool)
  | num (n : Int)
  | str (s : String)
  | arr (elems : List JSValue)
  | obj (fields : List (String × JSValue))

/-- Escape a character for a JSON string literal (quote and backslash;
control characters do not arise in this development). -/
def jsonEscapeChar (c : Char) : String :=
  if c = '"' then "\\\"" else if c = '\\' then "\\\\" else String.singleton c

def jsonEscape (s : String) : String :=
  String.join (s.data.map jsonEscapeChar)

/-- `JSON.stringify` on the modelled JSON values. -/
def jsonStringify : JSValue → String
  | .null => "null"
  | .bool b => if b then "true" else "false"
  | .num n => toString n
  | .str s => "\"" ++ jsonEscape s ++ "\""
  | .arr elems =>
      "[" ++ String.intercalate "," (elems.attach.map (fun x => jsonStringify x.1)) ++ "]"
  | .obj fields =>
      "\x7b" ++ String.intercalate ","
        (fields.attach.map (fun f => "\"" ++ jsonEscape f.1.1 ++ "\":" ++ jsonStringify f.1.2))
        ++ "\x7d"
decreasing_by
  · have h := List.sizeOf_lt_of_mem x.2
    simp only [JSValue.arr.sizeOf_spec]
    omega
  · obtain ⟨⟨a, b⟩, hf⟩ := f
    have h := List.sizeOf_lt_of_mem hf
    simp only [Prod.mk.sizeOf_spec] at h
    simp only [JSValue.obj.sizeOf_spec]
    omega

/-- The fixed backend origin hardcoded in the handler. -/
def BACKEND_ORIGIN : String :=
  "http://footage-flow-env.eba-92jebm7b.ap-south-1.elasticbeanstalk.com"

/-- The wildcard query parameter `req.query.proxy`: absent, a single
string segment, or an array of segments. -/
inductive ProxyParam where
  | missing
  | single (s : String)
  | multi (segs : List String)
  deriving DecidableEq

/-- `Array.isArray(proxy) ? proxy.join('/') : proxy` — an absent
parameter stays `undefined` (`none`). -/
def proxyPath : ProxyParam → Option String
  | .missing => none
  | .single s => some s
  | .multi segs => some (String.intercalate "/" segs)

/-- Template-literal interpolation of a possibly-undefined string:
`String(undefined)` is the text "undefined", not the empty string. -/
def jsInterpolate : Option String → String
  | some s => s
  | none => "undefined"

/-- The target URL the handler constructs:
`http backend origin + "/" + path` via a template literal. -/
def targetUrl (p : ProxyParam) : String :=
  BACKEND_ORIGIN ++ "/" ++ jsInterpolate (proxyPath p)

/-- The `fetchOptions` object the handler passes to `fetch`. -/
structure FetchOptions where
  method : String
  headers : List (String × String)
  body : Option String
  deriving DecidableEq

/-- An inbound request to the handler. Inbound headers are carried so
that the embedding can state that the handler never reads them. -/
structure InboundReq where
  method : String
  headers : List (String × String)
  proxy : ProxyParam
  body : JSValue

/-- A thrown JS exception as caught by the handler (`error.message`). -/
structure JSException where
  message : String
  deriving DecidableEq

/-- What the handler sends back: `res.status(s).json(body)`. -/
structure HandlerResult where
  status : Int
  body : JSValue

/-- One handler invocation: the outbound `fetch` calls it issued, and the
response it sent. -/
structure HandlerRun where
  outboundCalls : List (String × FetchOptions)
  result : HandlerResult

/-- The `fetchOptions` built in lines 228-237: fixed JSON content-type
header, and the inbound body JSON-serialized for every method other than
GET and HEAD. Nothing from `req.headers` is copied. -/
def fetchOptionsOf (req : InboundReq) : FetchOptions :=
  { method := req.method
    headers := [("Content-Type", "application/json")]
    body :=
      if req.method ≠ "GET" ∧ req.method ≠ "HEAD"
      then some (jsonStringify req.body) else none }

/-- The fixed 500 error envelope of the catch block. -/
def errorEnvelope (details : String) : JSValue :=
  .obj [("error", .str "Backend connection failed"), ("details", .str details)]

/-- The forwarding handler. The network (`fetch` followed by
`response.json()`) is a parameter `net`, returning either the outbound
status and parsed JSON body, or the exception it raised; any such
exception lands in the catch block producing the fixed 500 envelope. -/
def handler (net : String → FetchOptions → Except JSException (Int × JSValue))
    (req : InboundReq) : HandlerRun :=
  let url := targetUrl req.proxy
  let opts := fetchOptionsOf req
  match net url opts with
  | .ok sd => { outboundCalls := [(url, opts)], result := { status := sd.1, body := sd.2 } }
  | .error e =>
      { outboundCalls := [(url, opts)]
        result := { status := 500, body := errorEnvelope e.message } }

/-! ### Theorems -/

/-- Claim C1: on every failure through the shared client instance the
interceptor applies exactly four rules in order — `ERR_NETWORK` throws the
connect message, status 0 the CORS message, status 408 or `ECONNABORTED`
the timeout message, status ≥ 500 the server message — the first match
wins, and a failure matching none propagates unchanged. -/
theorem interceptor_four_rules (e : JSError) :
    (e.code = some "ERR_NETWORK" → interceptError e = .thrown networkErrMsg) ∧
    (e.code ≠ some "ERR_NETWORK" → statusIs e 0 = true →
      interceptError e = .thrown corsErrMsg) ∧
    (e.code ≠ some "ERR_NETWORK" → statusIs e 0 = false →
      (statusIs e 408 = true ∨ e.code = some "ECONNABORTED") →
      interceptError e = .thrown timeoutErrMsg) ∧
    (e.code ≠ some "ERR_NETWORK" → statusIs e 0 = false →
      statusIs e 408 = false → e.code ≠ some "ECONNABORTED" →
      statusGe500 e = true → interceptError e = .thrown serverErrMsg) ∧
    (e.code ≠ some "ERR_NETWORK" → statusIs e 0 = false →
      statusIs e 408 = false → e.code ≠ some "ECONNABORTED" →
      statusGe500 e = false → interceptError e = .rejected e) := by
  unfold interceptError
  refine ⟨fun h1 => ?_, fun h1 h2 => ?_, fun h1 h2 h3 => ?_,
    fun h1 h2 h3 h4 h5 => ?_, fun h1 h2 h3 h4 h5 => ?_⟩ <;>
    split_ifs <;> simp_all

/-- Witness for C1 at a concrete response-less network failure. -/
theorem interceptor_four_rules_witness :
    interceptError
      { message := "Network Error"
        code := some "ERR_NETWORK"
        response := none } = .thrown networkErrMsg :=
  (interceptor_four_rules _).1 rfl

/-- Claim C7: `uploadVideo` failures are classified by its own catch
block — `ERR_NETWORK` throws the network message, HTTP 413 the
file-too-large message, and anything else is re-thrown unmodified. -/
theorem uploadVideo_failure_classification (e : JSError) :
    (e.code = some "ERR_NETWORK" → uploadCatch e = .thrown uploadNetworkMsg) ∧
    (e.code ≠ some "ERR_NETWORK" → statusIs e 413 = true →
      uploadCatch e = .thrown uploadTooLargeMsg) ∧
    (e.code ≠ some "ERR_NETWORK" → statusIs e 413 = false →
      uploadCatch e = .rejected e) := by
  unfold uploadCatch
  refine ⟨fun h1 => ?_, fun h1 h2 => ?_, fun h1 h2 => ?_⟩ <;>
    split_ifs <;> simp_all

/-- Witness for C7 at the spec's example: an HTTP 413 failure. -/
theorem uploadVideo_failure_classification_witness :
    uploadCatch
      { message := "Request failed with status code 413"
        code := some "ERR_BAD_REQUEST"
        response := some { status := 413, data := { error := none } } } =
      .thrown uploadTooLargeMsg :=
  (uploadVideo_failure_classification _).2.1 (by decide) (by decide)

/-- Counterexample to claim C3 as stated: an error whose response body
carries the structured field `error: ""` is not surfaced verbatim (the
thrown message would be the empty string); the truthiness test
`if (error.response?.data?.error)` lets the empty string fall through to
the generic message. -/
theorem transcribe_empty_error_counterexample :
    transcribeCatch
      { message := "Request failed with status code 400"
        code := some "ERR_BAD_REQUEST"
        response := some { status := 400, data := { error := some "" } } } =
      transcribeGenericMsg ∧ transcribeGenericMsg ≠ "" := by
  constructor
  · rfl
  · decide

/-- Claim C3 (amended: a present error field is surfaced verbatim only
when it is truthy, i.e. non-empty): `transcribeVideo`'s catch block maps
a message containing "timeout" to the fixed timeout message, otherwise a
non-empty structured error field to that value verbatim, and everything
else — including an empty-string error field — to the generic message. -/
theorem transcribe_failure_classification (e : JSError) :
    (jsIncludes e.message "timeout" = true →
      transcribeCatch e = transcribeTimeoutMsg) ∧
    (∀ s : String, jsIncludes e.message "timeout" = false →
      e.response.bind (fun r => r.data.error) = some s → s ≠ "" →
      transcribeCatch e = s) ∧
    (jsIncludes e.message "timeout" = false →
      (e.response.bind (fun r => r.data.error) = none ∨
        e.response.bind (fun r => r.data.error) = some "") →
      transcribeCatch e = transcribeGenericMsg) := by
  unfold transcribeCatch
  refine ⟨fun h1 => ?_, fun s h1 h2 h3 => ?_, fun h1 h2 => ?_⟩
  · simp [h1]
  · simp only [h1, Bool.false_eq_true, if_false, h2]
    simp [h3]
  · rcases h2 with h2 | h2 <;> simp [h1, h2]

/-- Witness for C3 at the spec's example: backend error body
`error: "bad video"` surfaces verbatim. -/
theorem transcribe_failure_classification_witness :
    transcribeCatch
      { message := "Request failed with status code 400"
        code := some "ERR_BAD_REQUEST"
        response := some { status := 400, data := { error := some "bad video" } } } =
      "bad video" :=
  (transcribe_failure_classification _).2.1 "bad video" (by decide) rfl (by decide)

/-- Counterexample to claim C2 as stated: a caller-supplied
`transitionDuration` of `0` is not carried through; `0 || 0.5` evaluates
to `0.5` because `0` is falsy. -/
theorem renderVideo_zero_transition_counterexample :
    (renderBody "v1" ([] : List String)
        { transitionDuration := some 0 }).transitionDuration = 1 / 2 ∧
      (1 / 2 : ℚ) ≠ 0 := by
  constructor
  · rfl
  · norm_num

/-- Claim C2 (amended: a supplied falsy value, i.e. `0`, also yields the
default): `renderVideo` sends `transitionDuration: 0.5` when the option is
absent or zero, and the caller-supplied value whenever it is non-zero. -/
theorem renderVideo_transitionDuration {σ : Type} (videoId : String)
    (scenes : σ) (options : RenderOptions) :
    (options.transitionDuration = none →
      (renderBody videoId scenes options).transitionDuration = 1 / 2) ∧
    (∀ v : ℚ, options.transitionDuration = some v → v ≠ 0 →
      (renderBody videoId scenes options).transitionDuration = v) ∧
    (options.transitionDuration = some 0 →
      (renderBody videoId scenes options).transitionDuration = 1 / 2) := by
  unfold renderBody jsNumOr
  refine ⟨fun h1 => ?_, fun v h1 h2 => ?_, fun h1 => ?_⟩ <;> simp [h1]
  intro h
  exact absurd h h2

/-- Witness for C2 (amended) at a supplied non-zero value. -/
theorem renderVideo_transitionDuration_witness :
    (renderBody "v1" ([] : List String)
        { transitionDuration := some 2 }).transitionDuration = 2 :=
  (renderVideo_transitionDuration "v1" ([] : List String)
    { transitionDuration := some 2 }).2.1 2 rfl (by norm_num)

/-- Claim C9: a backend failure with HTTP status ≥ 500 whose body carries
a structured error field is remapped by the shared interceptor to a plain
server-error `Error` (no `response` attached) before `transcribeVideo`'s
catch block runs, so the catch block throws the generic transcription
message rather than the body's error field. -/
theorem transcribe_5xx_masked_by_interceptor (e : JSError) (r : HttpResponse)
    (msg : String) (hr : e.response = some r) (hs : 500 ≤ r.status)
    (herr : r.data.error = some msg)
    (hc1 : e.code ≠ some "ERR_NETWORK") (hc2 : e.code ≠ some "ECONNABORTED") :
    interceptError e = .thrown serverErrMsg ∧
    errorAfterIntercept e = plainError serverErrMsg ∧
    transcribeFailureMsg e = transcribeGenericMsg ∧
    (msg ≠ transcribeGenericMsg → transcribeFailureMsg e ≠ msg) := by
  have hs0 : statusIs e 0 = false := by
    simp only [statusIs, hr, Option.any_some, beq_eq_false_iff_ne, ne_eq]
    omega
  have hs408 : statusIs e 408 = false := by
    simp only [statusIs, hr, Option.any_some, beq_eq_false_iff_ne, ne_eq]
    omega
  have hge : statusGe500 e = true := by
    simp only [statusGe500, hr, Option.any_some, decide_eq_true_eq]
    exact hs
  have h1 : interceptError e = .thrown serverErrMsg := by
    simp [interceptError, hc1, hc2, hs0, hs408, hge]
  have h2 : errorAfterIntercept e = plainError serverErrMsg := by
    unfold errorAfterIntercept
    rw [h1]
  have h3 : transcribeFailureMsg e = transcribeGenericMsg := by
    unfold transcribeFailureMsg
    rw [h2]
    decide
  exact ⟨h1, h2, h3, fun hne => by rw [h3]; exact fun hcontra => hne hcontra.symm⟩

/-- Witness for C9 at a concrete 500 response with error body "db down". -/
theorem transcribe_5xx_masked_by_interceptor_witness :
    interceptError
        { message := "Request failed with status code 500"
          code := some "ERR_BAD_RESPONSE"
          response := some { status := 500, data := { error := some "db down" } } } =
      .thrown serverErrMsg ∧
    errorAfterIntercept
        { message := "Request failed with status code 500"
          code := some "ERR_BAD_RESPONSE"
          response := some { status := 500, data := { error := some "db down" } } } =
      plainError serverErrMsg ∧
    transcribeFailureMsg
        { message := "Request failed with status code 500"
          code := some "ERR_BAD_RESPONSE"
          response := some { status := 500, data := { error := some "db down" } } } =
      transcribeGenericMsg ∧
    ("db down" ≠ transcribeGenericMsg →
      transcribeFailureMsg
          { message := "Request failed with status code 500"
            code := some "ERR_BAD_RESPONSE"
            response := some { status := 500, data := { error := some "db down" } } } ≠
        "db down") :=
  transcribe_5xx_masked_by_interceptor _ _ "db down" rfl (by decide) rfl
    (by decide) (by decide)

/-- Claim C10: `uploadVideo` posts with a bare `axios.post`, so the shared
interceptor's remappings never apply to uploads: a failure with status 0,
408 or ≥ 500 (and no `ERR_NETWORK` code) is re-thrown with its original
status and body, where the interceptor would have replaced it with the
CORS, timeout or server-error message. -/
theorem uploadVideo_bypasses_interceptor (e : JSError) (r : HttpResponse)
    (hc : e.code ≠ some "ERR_NETWORK") (hr : e.response = some r)
    (hs : r.status = 0 ∨ r.status = 408 ∨ 500 ≤ r.status) :
    uploadCatch e = .rejected e ∧
    (interceptError e = .thrown corsErrMsg ∨
     interceptError e = .thrown timeoutErrMsg ∨
     interceptError e = .thrown serverErrMsg) := by
  have h413 : statusIs e 413 = false := by
    simp only [statusIs, hr, Option.any_some, beq_eq_false_iff_ne, ne_eq]
    omega
  refine ⟨by simp [uploadCatch, hc, h413], ?_⟩
  rcases hs with hs | hs | hs
  · have hs0 : statusIs e 0 = true := by
      simp [statusIs, hr, hs]
    exact Or.inl (by simp [interceptError, hc, hs0])
  · have hs0 : statusIs e 0 = false := by
      simp only [statusIs, hr, Option.any_some, beq_eq_false_iff_ne, ne_eq]
      omega
    have hs408 : statusIs e 408 = true := by
      simp [statusIs, hr, hs]
    exact Or.inr (Or.inl (by simp [interceptError, hc, hs0, hs408]))
  · have hs0 : statusIs e 0 = false := by
      simp only [statusIs, hr, Option.any_some, beq_eq_false_iff_ne, ne_eq]
      omega
    have hs408 : statusIs e 408 = false := by
      simp only [statusIs, hr, Option.any_some, beq_eq_false_iff_ne, ne_eq]
      omega
    have hge : statusGe500 e = true := by
      simp only [statusGe500, hr, Option.any_some, decide_eq_true_eq]
      exact hs
    by_cases hab : e.code = some "ECONNABORTED"
    · exact Or.inr (Or.inl (by simp [interceptError, hc, hs0, hab]))
    · exact Or.inr (Or.inr (by simp [interceptError, hc, hs0, hs408, hab, hge]))

/-- Witness for C10 at a concrete HTTP 503 upload failure. -/
theorem uploadVideo_bypasses_interceptor_witness :
    uploadCatch
        { message := "Request failed with status code 503"
          code := some "ERR_BAD_RESPONSE"
          response := some { status := 503, data := { error := none } } } =
      .rejected
        { message := "Request failed with status code 503"
          code := some "ERR_BAD_RESPONSE"
          response := some { status := 503, data := { error := none } } } ∧
    (interceptError
          { message := "Request failed with status code 503"
            code := some "ERR_BAD_RESPONSE"
            response := some { status := 503, data := { error := none } } } =
        .thrown corsErrMsg ∨
     interceptError
          { message := "Request failed with status code 503"
            code := some "ERR_BAD_RESPONSE"
            response := some { status := 503, data := { error := none } } } =
        .thrown timeoutErrMsg ∨
     interceptError
          { message := "Request failed with status code 503"
            code := some "ERR_BAD_RESPONSE"
            response := some { status := 503, data := { error := none } } } =
        .thrown serverErrMsg) :=
  uploadVideo_bypasses_interceptor _ _ (by decide) rfl (by decide)

/-- Claim C4: when the outbound dispatch or JSON parsing raises, the
forwarding handler answers 500 with the fixed envelope
`error: "Backend connection failed", details: the exception's message`;
the handler itself is total, so no exception escapes it. -/
theorem handler_exception_envelope
    (net : String → FetchOptions → Except JSException (Int × JSValue))
    (req : InboundReq) (ex : JSException)
    (h : net (targetUrl req.proxy) (fetchOptionsOf req) = .error ex) :
    (handler net req).result.status = 500 ∧
    (handler net req).result.body =
      .obj [("error", .str "Backend connection failed"),
            ("details", .str ex.message)] := by
  simp [handler, h, errorEnvelope]

/-- Witness for C4: a network layer that always raises. -/
theorem handler_exception_envelope_witness :
    (handler (fun _ _ => .error { message := "connect ECONNREFUSED" })
        { method := "GET", headers := [], proxy := .single "health",
          body := .null }).result.status = 500 ∧
    (handler (fun _ _ => .error { message := "connect ECONNREFUSED" })
        { method := "GET", headers := [], proxy := .single "health",
          body := .null }).result.body =
      .obj [("error", .str "Backend connection failed"),
            ("details", .str "connect ECONNREFUSED")] :=
  handler_exception_envelope _ _ _ rfl

/-- Claim C5: for an inbound GET whose wildcard parameter is the segment
list `segs`, the handler issues exactly one outbound GET to the fixed
origin followed by the segments joined with "/", with no body and the
fixed JSON header, and on success relays the outbound status and parsed
JSON body verbatim. -/
theorem handler_get_forwarding
    (net : String → FetchOptions → Except JSException (Int × JSValue))
    (req : InboundReq) (segs : List String) (status : Int) (outBody : JSValue)
    (hm : req.method = "GET") (hp : req.proxy = .multi segs)
    (h : net (targetUrl (.multi segs)) (fetchOptionsOf req) = .ok (status, outBody)) :
    fetchOptionsOf req =
      { method := "GET", headers := [("Content-Type", "application/json")],
        body := none } ∧
    (handler net req).outboundCalls =
      [(BACKEND_ORIGIN ++ "/" ++ String.intercalate "/" segs, fetchOptionsOf req)] ∧
    (handler net req).result.status = status ∧
    (handler net req).result.body = outBody := by
  have hopts : fetchOptionsOf req =
      { method := "GET", headers := [("Content-Type", "application/json")],
        body := none } := by
    simp [fetchOptionsOf, hm]
  have hurl : targetUrl (.multi segs) =
      BACKEND_ORIGIN ++ "/" ++ String.intercalate "/" segs := rfl
  have hrun : handler net req =
      { outboundCalls := [(targetUrl (.multi segs), fetchOptionsOf req)]
        result := { status := status, body := outBody } } := by
    simp [handler, hp, h]
  refine ⟨hopts, ?_, ?_, ?_⟩ <;> rw [hrun]
  rw [hurl]

/-- Witness for C5 at the spec's example `segs = [a, b]`. -/
theorem handler_get_forwarding_witness :
    fetchOptionsOf
        { method := "GET", headers := [("Authorization", "Bearer t")],
          proxy := .multi ["a", "b"], body := .null } =
      { method := "GET", headers := [("Content-Type", "application/json")],
        body := none } ∧
    (handler (fun _ _ => .ok (200, .str "ok"))
        { method := "GET", headers := [("Authorization", "Bearer t")],
          proxy := .multi ["a", "b"], body := .null }).outboundCalls =
      [(BACKEND_ORIGIN ++ "/" ++ String.intercalate "/" ["a", "b"],
        fetchOptionsOf
          { method := "GET", headers := [("Authorization", "Bearer t")],
            proxy := .multi ["a", "b"], body := .null })] ∧
    (handler (fun _ _ => .ok (200, .str "ok"))
        { method := "GET", headers := [("Authorization", "Bearer t")],
          proxy := .multi ["a", "b"], body := .null }).result.status = 200 ∧
    (handler (fun _ _ => .ok (200, .str "ok"))
        { method := "GET", headers := [("Authorization", "Bearer t")],
          proxy := .multi ["a", "b"], body := .null }).result.body = .str "ok" :=
  handler_get_forwarding _ _ ["a", "b"] 200 (.str "ok") rfl rfl rfl

/-- Counterexample to claim C6 as stated: with the wildcard parameter
missing, the constructed target is not the origin with a bare trailing
slash — JS template-literal interpolation renders `undefined` as the
nine-character text "undefined". -/
theorem targetUrl_missing_counterexample :
    targetUrl .missing ≠ BACKEND_ORIGIN ++ "/" := by
  decide

/-- Claim C6 (amended: the trailing segment is the text "undefined", not
an empty segment): a missing wildcard parameter yields the fixed origin
followed by "/undefined". -/
theorem targetUrl_missing_amended :
    targetUrl .missing = BACKEND_ORIGIN ++ "/undefined" := rfl

/-- Claim C8: the handler's outbound options carry exactly the fixed
`Content-Type: application/json` header (no inbound header, including
authentication, is forwarded — the options do not depend on the inbound
headers at all); the inbound body is JSON-serialized and attached for
every method other than GET and HEAD, while GET and HEAD carry no body. -/
theorem handler_outbound_headers_body (req : InboundReq) :
    (fetchOptionsOf req).headers = [("Content-Type", "application/json")] ∧
    (req.method ≠ "GET" → req.method ≠ "HEAD" →
      (fetchOptionsOf req).body = some (jsonStringify req.body)) ∧
    (req.method = "GET" ∨ req.method = "HEAD" →
      (fetchOptionsOf req).body = none) ∧
    (∀ hdrs : List (String × String),
      fetchOptionsOf { req with headers := hdrs } = fetchOptionsOf req) := by
  refine ⟨rfl, fun h1 h2 => ?_, fun h => ?_, fun hdrs => rfl⟩
  · simp [fetchOptionsOf, h1, h2]
  · rcases h with h | h <;> simp [fetchOptionsOf, h]

/-- Witness for C8 at a concrete POST with a JSON object body. -/
theorem handler_outbound_headers_body_witness :
    (fetchOptionsOf
        { method := "POST", headers := [("Authorization", "Bearer t")],
          proxy := .single "search", body := .obj [("videoId", .str "v1")] }).headers =
      [("Content-Type", "application/json")] ∧
    (fetchOptionsOf
        { method := "POST", headers := [("Authorization", "Bearer t")],
          proxy := .single "search", body := .obj [("videoId", .str "v1")] }).body =
      some (jsonStringify (.obj [("videoId", .str "v1")])) :=
  ⟨(handler_outbound_headers_body _).1,
   (handler_outbound_headers_body _).2.1 (by decide) (by decide)⟩

end FrontendFlask
